import Mathlib

/-!
Verification of the yt_downloader repository (Next.js client `app/page.tsx`
and API routes `app/api/download-simple/route.ts`, `app/api/video-info/route.ts`
which also carries the `/api/download` handler).

JavaScript values are shallowly embedded: possibly-`undefined` strings become
`Option String`, possibly-`undefined` numbers become `Option ℚ` (or `Option Nat`
for byte counts), and JavaScript truthiness tests (`!x`, `x || y`) are embedded
by explicit helpers below.  Components of the Python backend that are absent
from the repository source (fingerprint function, task registry, worker,
progress broker) are modelled from the specification and marked as such on the
corresponding definitions.
-/

/-- JavaScript falsiness of a possibly-undefined string: `!x` is true exactly
when `x` is `undefined` or the empty string. -/
def jsStrFalsy : Option String → Bool
  | none => true
  | some s => s.isEmpty

/-- JavaScript truthiness of a possibly-undefined string. -/
def jsStrTruthy (o : Option String) : Bool := !(jsStrFalsy o)

/-- JavaScript `x || d` for a possibly-undefined string `x` and a string
default `d`: yields `d` when `x` is falsy. -/
def jsOrStr (o : Option String) (d : String) : String :=
  match o with
  | none => d
  | some s => if s.isEmpty then d else s

/-- JavaScript `x || y` for two possibly-undefined strings
(`progressData.download_id || downloadProgress.download_id`). -/
def jsOrOpt (o fallback : Option String) : Option String :=
  match o with
  | none => fallback
  | some s => if s.isEmpty then fallback else some s

/-- The client's `DownloadProgress` React state (interface `DownloadProgress`
in `app/page.tsx`); every field other than `status` is optional there, and at
runtime `status` itself is whatever string the last event carried, so it is
embedded as `Option String` too. -/
structure DownloadProgressState where
  status : Option String
  percentage : Option ℚ
  filename : Option String
  error : Option String
  download_id : Option String
  message : Option String
  speed : Option String
  eta : Option String
deriving Repr, DecidableEq

/-- A parsed JSON object as received from a backend or API response; the
fields are the ones the client and the routes ever read.  Absent fields are
`none` (JavaScript `undefined`). -/
structure BackendJson where
  detail : Option String
  download_id : Option String
  progress : Option ℚ
  message : Option String
  status : Option String
  error : Option String
  filename : Option String
  speed : Option String
  eta : Option String
deriving Repr, DecidableEq

/-- The state set by `setDownloadProgress({ status: 'downloading', percentage: 0 })`
at the top of `downloadVideo` (and of the three rung handlers). -/
def initialDownloading : DownloadProgressState :=
  { status := some "downloading", percentage := some 0, filename := none,
    error := none, download_id := none, message := none, speed := none, eta := none }

/-- The state set by the `catch` branch of `downloadVideo` and of the three
rung handlers. -/
def catchErrorState : DownloadProgressState :=
  { status := some "error", percentage := none, filename := none,
    error := some "Download failed. Please try again.", download_id := none,
    message := none, speed := none, eta := none }

/-- `downloadVideo`'s handling of the parsed submission response
(`app/page.tsx`, lines 145–172): the duplicate-marker branch, the failed
branch, the fresh-task branch, and otherwise the state set at the top of the
function is left in place. -/
def downloadVideoFinal (data : BackendJson) : DownloadProgressState :=
  if data.message = some "Download task already exists" then
    { status := some "exists", percentage := data.progress, filename := none,
      error := none, download_id := data.download_id,
      message := some "Download task already exists", speed := none, eta := none }
  else if data.status = some "failed" then
    { status := some "error", percentage := none, filename := none,
      error := some (jsOrStr data.error "Download failed"),
      download_id := data.download_id, message := none, speed := none, eta := none }
  else if (data.download_id).isSome then
    { status := some "downloading", percentage := some 0, filename := none,
      error := none, download_id := data.download_id, message := none,
      speed := none, eta := none }
  else initialDownloading

/-- The guard of the progress-stream `useEffect` in `app/page.tsx` (line 48):
an `EventSource` is opened only when the current state has a truthy
`download_id` and status `'downloading'`. -/
def streamOpens (p : Option DownloadProgressState) : Bool :=
  match p with
  | none => false
  | some st => jsStrTruthy st.download_id && st.status == some "downloading"

/-- The `EventSource.onmessage` handler (`app/page.tsx`, lines 53–83), as a
function from the previous state and the parsed event to the resulting state
(`none` embeds `setDownloadProgress(null)`) paired with whether the handler
closes the stream. -/
def onMessage (prev : DownloadProgressState) (d : BackendJson) :
    Option DownloadProgressState × Bool :=
  if d.status = some "keepalive" then (some prev, false)
  else
    let next : DownloadProgressState :=
      { status := if d.status = some "failed" then some "error" else d.status,
        percentage := d.progress, filename := d.filename, error := d.error,
        download_id := jsOrOpt d.download_id prev.download_id,
        message := none, speed := d.speed, eta := d.eta }
    if d.status = some "completed" then (some next, true)
    else if d.status = some "failed" then (some next, true)
    else if d.status = some "cancelled" then (none, true)
    else (some next, false)

/-- C1: a submission response carrying the duplicate marker
(`message = 'Download task already exists'`) makes `downloadVideo` set the
`'exists'` state holding the existing task's `download_id` and its current
progress; that state is not a fresh `'downloading'` state and does not satisfy
the stream-opening guard (nor does the transient pre-response state, which has
no `download_id`). -/
theorem downloadVideo_duplicate_sets_exists (data : BackendJson)
    (h : data.message = some "Download task already exists") :
    downloadVideoFinal data =
      { status := some "exists", percentage := data.progress, filename := none,
        error := none, download_id := data.download_id,
        message := some "Download task already exists", speed := none, eta := none } ∧
    (downloadVideoFinal data).status ≠ some "downloading" ∧
    streamOpens (some (downloadVideoFinal data)) = false ∧
    streamOpens (some initialDownloading) = false := by
  refine ⟨by simp [downloadVideoFinal, h], ?_, ?_, by decide⟩
  · simp [downloadVideoFinal, h]
  · simp [downloadVideoFinal, h, streamOpens]

/-- Witness for `downloadVideo_duplicate_sets_exists` at a concrete duplicate
response. -/
theorem downloadVideo_duplicate_sets_exists_witness :
    downloadVideoFinal
      { detail := none, download_id := some "task-1", progress := some 37,
        message := some "Download task already exists", status := none,
        error := none, filename := none, speed := none, eta := none } =
      { status := some "exists", percentage := some 37, filename := none,
        error := none, download_id := some "task-1",
        message := some "Download task already exists", speed := none, eta := none } ∧
    streamOpens (some (downloadVideoFinal
      { detail := none, download_id := some "task-1", progress := some 37,
        message := some "Download task already exists", status := none,
        error := none, filename := none, speed := none, eta := none })) = false := by
  have h := downloadVideo_duplicate_sets_exists
    { detail := none, download_id := some "task-1", progress := some 37,
      message := some "Download task already exists", status := none,
      error := none, filename := none, speed := none, eta := none } rfl
  exact ⟨h.1, h.2.2.1⟩

/-- C3: the client's stream handler leaves the state unchanged and keeps the
stream open on a `keepalive` event, and closes the `EventSource` on
`completed`, `failed` and `cancelled` events. -/
theorem onMessage_keepalive_and_terminal (prev : DownloadProgressState)
    (d : BackendJson) :
    (d.status = some "keepalive" → onMessage prev d = (some prev, false)) ∧
    (d.status = some "completed" ∨ d.status = some "failed" ∨
        d.status = some "cancelled" → (onMessage prev d).2 = true) := by
  constructor
  · intro h
    simp [onMessage, h]
  · rintro (h | h | h) <;> simp [onMessage, h]

/-- Witness for `onMessage_keepalive_and_terminal` at concrete events. -/
theorem onMessage_keepalive_and_terminal_witness :
    onMessage initialDownloading
      { detail := none, download_id := none, progress := none, message := none,
        status := some "keepalive", error := none, filename := none,
        speed := none, eta := none } = (some initialDownloading, false) ∧
    (onMessage initialDownloading
      { detail := none, download_id := some "task-1", progress := some 100,
        message := none, status := some "completed", error := none,
        filename := some "a.mp4", speed := none, eta := none }).2 = true := by
  constructor
  · exact (onMessage_keepalive_and_terminal initialDownloading
      { detail := none, download_id := none, progress := none, message := none,
        status := some "keepalive", error := none, filename := none,
        speed := none, eta := none }).1 rfl
  · exact (onMessage_keepalive_and_terminal initialDownloading
      { detail := none, download_id := some "task-1", progress := some 100,
        message := none, status := some "completed", error := none,
        filename := some "a.mp4", speed := none, eta := none }).2 (Or.inl rfl)

/-- Outcome of the client's `fetch` call inside a download handler: either the
fetch (or `response.json()`) throws, or a parsed JSON object is obtained. -/
inductive ClientOutcome where
  | fetchError : ClientOutcome
  | responseData : BackendJson → ClientOutcome
deriving Repr, DecidableEq

/-- `downloadVideo` (`app/page.tsx`, lines 128–179): final state for a given
fetch outcome, paired with the list of endpoints it requests — a single
unconditional `fetch('/api/download')`; no branch issues a further request. -/
def downloadVideoRun (o : ClientOutcome) : DownloadProgressState × List String :=
  (match o with
   | .fetchError => catchErrorState
   | .responseData d => downloadVideoFinal d,
   ["/api/download"])

/-- Shared response handling of the three rung handlers: a fresh `downloading`
state when the response carries a truthy `download_id`, otherwise the state
set at the top of the handler is left in place. -/
def rungResponseState (d : BackendJson) : DownloadProgressState :=
  if jsStrTruthy d.download_id then
    { status := some "downloading", percentage := some 0, filename := none,
      error := none, download_id := d.download_id, message := none,
      speed := none, eta := none }
  else initialDownloading

/-- `downloadAlternative` (`app/page.tsx`, lines 249–278): one unconditional
request to `/api/download-alternative`, no retry in any branch. -/
def downloadAlternativeRun (o : ClientOutcome) : DownloadProgressState × List String :=
  (match o with
   | .fetchError => catchErrorState
   | .responseData d => rungResponseState d,
   ["/api/download-alternative"])

/-- `downloadFallback` (`app/page.tsx`, lines 217–246): one unconditional
request to `/api/download-fallback`, no retry in any branch. -/
def downloadFallbackRun (o : ClientOutcome) : DownloadProgressState × List String :=
  (match o with
   | .fetchError => catchErrorState
   | .responseData d => rungResponseState d,
   ["/api/download-fallback"])

/-- `downloadSimple` (`app/page.tsx`, lines 280–309): one unconditional
request to `/api/download-simple`, no retry in any branch. -/
def downloadSimpleRun (o : ClientOutcome) : DownloadProgressState × List String :=
  (match o with
   | .fetchError => catchErrorState
   | .responseData d => rungResponseState d,
   ["/api/download-simple"])

/-- C2 counterexample: at the concrete submission response reporting a
collaborator failure, `downloadVideo` ends in the error state having issued
only its own single request — no request to a 480p/720p/lowest rung follows —
and the quality rungs exist as four pairwise-distinct user-invoked endpoints,
each of whose handlers also ends in an error state on failure with no further
request.  This refutes the claimed automatic in-worker ladder advance. -/
theorem no_automatic_ladder_counterexample :
    (downloadVideoRun (.responseData
      { detail := none, download_id := some "task-1", progress := none,
        message := none, status := some "failed",
        error := some "Requested format is not available", filename := none,
        speed := none, eta := none })).1.status = some "error" ∧
    (downloadVideoRun (.responseData
      { detail := none, download_id := some "task-1", progress := none,
        message := none, status := some "failed",
        error := some "Requested format is not available", filename := none,
        speed := none, eta := none })).2 = ["/api/download"] ∧
    (downloadAlternativeRun .fetchError).1.status = some "error" ∧
    (downloadAlternativeRun .fetchError).2 = ["/api/download-alternative"] ∧
    (downloadFallbackRun .fetchError).2 = ["/api/download-fallback"] ∧
    (downloadSimpleRun .fetchError).2 = ["/api/download-simple"] ∧
    List.Pairwise (· ≠ ·)
      ["/api/download", "/api/download-alternative", "/api/download-fallback",
       "/api/download-simple"] := by
  decide

/-- C2 amended: the fallback rungs are separate user-invoked client handlers —
`downloadVideo` (user-selected format), `downloadAlternative` (480p),
`downloadFallback` (720p), `downloadSimple` (lowest) — each issuing exactly
one request to its own fixed endpoint whatever the outcome, the four endpoints
being pairwise distinct; no handler performs an automatic retry or ladder
advance: a thrown fetch sets the error state, while a parsed failure response
without a `download_id` (the shape src's routes produce for backend failures)
merely leaves the initial `'downloading'` state in place. -/
theorem rungs_are_separate_endpoints (o : ClientOutcome) (d : BackendJson) :
    (downloadVideoRun o).2 = ["/api/download"] ∧
    (downloadAlternativeRun o).2 = ["/api/download-alternative"] ∧
    (downloadFallbackRun o).2 = ["/api/download-fallback"] ∧
    (downloadSimpleRun o).2 = ["/api/download-simple"] ∧
    (downloadVideoRun .fetchError).1 = catchErrorState ∧
    (downloadAlternativeRun .fetchError).1 = catchErrorState ∧
    (downloadFallbackRun .fetchError).1 = catchErrorState ∧
    (downloadSimpleRun .fetchError).1 = catchErrorState ∧
    (jsStrFalsy d.download_id = true →
      (downloadAlternativeRun (.responseData d)).1 = initialDownloading ∧
      (downloadFallbackRun (.responseData d)).1 = initialDownloading ∧
      (downloadSimpleRun (.responseData d)).1 = initialDownloading) ∧
    List.Pairwise (· ≠ ·)
      ["/api/download", "/api/download-alternative", "/api/download-fallback",
       "/api/download-simple"] := by
  refine ⟨?_, ?_, ?_, ?_, rfl, rfl, rfl, rfl, ?_, by decide⟩
  · cases o <;> rfl
  · cases o <;> rfl
  · cases o <;> rfl
  · cases o <;> rfl
  · intro h
    have ht : jsStrTruthy d.download_id = false := by simp [jsStrTruthy, h]
    exact ⟨by simp [downloadAlternativeRun, rungResponseState, ht],
      by simp [downloadFallbackRun, rungResponseState, ht],
      by simp [downloadSimpleRun, rungResponseState, ht]⟩

/-- Witness for `rungs_are_separate_endpoints` at a concrete parsed failure
response without a `download_id`. -/
theorem rungs_are_separate_endpoints_witness :
    (downloadAlternativeRun (.responseData
      { detail := none, download_id := none, progress := none, message := none,
        status := none, error := some "Download failed", filename := none,
        speed := none, eta := none })).1 = initialDownloading ∧
    (downloadFallbackRun (.responseData
      { detail := none, download_id := none, progress := none, message := none,
        status := none, error := some "Download failed", filename := none,
        speed := none, eta := none })).1 = initialDownloading ∧
    (downloadSimpleRun (.responseData
      { detail := none, download_id := none, progress := none, message := none,
        status := none, error := some "Download failed", filename := none,
        speed := none, eta := none })).1 = initialDownloading ∧
    (downloadSimpleRun .fetchError).2 = ["/api/download-simple"] := by
  have h := rungs_are_separate_endpoints .fetchError
    { detail := none, download_id := none, progress := none, message := none,
      status := none, error := some "Download failed", filename := none,
      speed := none, eta := none }
  have h9 := h.2.2.2.2.2.2.2.2.1 rfl
  exact ⟨h9.1, h9.2.1, h9.2.2, h.2.2.2.1⟩

/-- `Response.ok` of the WHATWG fetch API: status in the range 200–299. -/
def respOk (s : Nat) : Bool := 200 ≤ s && s ≤ 299

/-- Outcome of a route's `fetch` to the Python backend: the fetch throws, or a
response arrives with a status code and (`some`) a parseable JSON body or
(`none`) a body on which `response.json()` throws. -/
inductive FetchOutcome where
  | networkError : FetchOutcome
  | resp : Nat → Option BackendJson → FetchOutcome
deriving Repr, DecidableEq

/-- Result of a JSON-returning API route: HTTP status, the `error` field of
the JSON body if present, the passed-through backend payload if any, and
whether the backend was contacted at all. -/
structure RouteResult where
  status : Nat
  error : Option String
  data : Option BackendJson
  backendCalled : Bool
deriving Repr, DecidableEq

/-- The `POST` handler of `app/api/download-simple/route.ts`: 400 before any
backend call when `url` is falsy; on a non-OK backend response the backend's
status and `errorData.detail || 'Download failed'` are forwarded; network
errors and unparseable bodies land in the `catch` giving 500. -/
def downloadSimplePOST (url : Option String) (o : FetchOutcome) : RouteResult :=
  if jsStrFalsy url then
    { status := 400, error := some "URL is required", data := none,
      backendCalled := false }
  else
    match o with
    | .networkError =>
        { status := 500, error := some "Download failed", data := none,
          backendCalled := true }
    | .resp s body =>
        if respOk s then
          match body with
          | some b => { status := 200, error := none, data := some b,
                        backendCalled := true }
          | none => { status := 500, error := some "Download failed",
                      data := none, backendCalled := true }
        else
          match body with
          | some b => { status := s,
                        error := some (jsOrStr b.detail "Download failed"),
                        data := none, backendCalled := true }
          | none => { status := 500, error := some "Download failed",
                      data := none, backendCalled := true }

/-- The video-info `POST` handler of `app/api/video-info/route.ts`: 400 before
any backend call when `url` is falsy; a non-OK backend response is turned into
a thrown error, so it reaches the same `catch` as network errors and
unparseable bodies, which always answers 500 with the fixed error body. -/
def videoInfoPOST (url : Option String) (o : FetchOutcome) : RouteResult :=
  if jsStrFalsy url then
    { status := 400, error := some "URL is required", data := none,
      backendCalled := false }
  else
    match o with
    | .networkError =>
        { status := 500, error := some "Failed to fetch video information",
          data := none, backendCalled := true }
    | .resp s body =>
        if respOk s then
          match body with
          | some b => { status := 200, error := none, data := some b,
                        backendCalled := true }
          | none => { status := 500,
                      error := some "Failed to fetch video information",
                      data := none, backendCalled := true }
        else
          { status := 500, error := some "Failed to fetch video information",
            data := none, backendCalled := true }

/-- One of the encodings listed by the video-info lookup (interface
`VideoInfo.formats` in `app/page.tsx`): `format_id` and the container
extension `ext` are independent fields. -/
structure VideoFormat where
  format_id : String
  ext : String
  resolution : String
  filesize : Option Nat
  vcodec : String
  acodec : String
deriving Repr, DecidableEq

/-- JavaScript `String.prototype.split` with a one-character separator, on the
character list of the string: `""` splits to `[""]`, adjacent separators
produce empty components. -/
def splitChar (sep : Char) : List Char → List (List Char)
  | [] => [[]]
  | c :: cs =>
    match splitChar sep cs with
    | [] => if c = sep then [[], []] else [[c]]
    | r :: rs => if c = sep then [] :: r :: rs else (c :: r) :: rs

/-- JavaScript `s.split(sep)` for a one-character separator. -/
def jsSplit (sep : Char) (s : String) : List String :=
  (splitChar sep s.data).map String.mk

/-- The filename extension computed by the `/api/download` handler:
`format_id.split('-')[1] || 'mp4'`. -/
def fidExt (fid : String) : String := jsOrStr (jsSplit '-' fid)[1]? "mp4"

/-- Outcome of the `/api/download` handler's backend fetch: the fetch throws,
or a response arrives with a status code and a binary body. -/
inductive BlobOutcome where
  | networkError : BlobOutcome
  | resp : Nat → String → BlobOutcome
deriving Repr, DecidableEq

/-- Result of the `/api/download` handler: HTTP status, JSON `error` field on
failure, `Content-Type` and `Content-Disposition` headers and binary body on
success, and whether the backend was contacted. -/
structure FileRouteResult where
  status : Nat
  error : Option String
  contentType : Option String
  contentDisposition : Option String
  body : Option String
  backendCalled : Bool
deriving Repr, DecidableEq

/-- The download `POST` handler in `app/api/video-info/route.ts`: 400 before
any backend call when `url` or `format_id` is falsy; a non-OK backend response
throws into the `catch` (500); on success the blob is streamed back with
`Content-Disposition: attachment; filename="video.<ext>"` where `<ext>` is
`format_id.split('-')[1] || 'mp4'`. -/
def downloadPOST (url format_id : Option String) (o : BlobOutcome) : FileRouteResult :=
  if jsStrFalsy url || jsStrFalsy format_id then
    { status := 400, error := some "URL and format_id are required",
      contentType := none, contentDisposition := none, body := none,
      backendCalled := false }
  else
    match o with
    | .networkError =>
        { status := 500, error := some "Download failed", contentType := none,
          contentDisposition := none, body := none, backendCalled := true }
    | .resp s blob =>
        if respOk s then
          { status := 200, error := none,
            contentType := some "application/octet-stream",
            contentDisposition := some
              ("attachment; filename=\x22video." ++ fidExt (format_id.getD "") ++ "\x22"),
            body := some blob, backendCalled := true }
        else
          { status := 500, error := some "Download failed", contentType := none,
            contentDisposition := none, body := none, backendCalled := true }

/-- C5: a submission whose `url` is missing (and, for the format download,
whose `format_id` is missing) is answered synchronously with status 400 and an
error body, with no backend call — so no task is created — whatever the
backend outcome would have been. -/
theorem missing_fields_give_400_no_backend_call (o : FetchOutcome)
    (o2 : BlobOutcome) (u f : Option String) :
    downloadSimplePOST none o =
      { status := 400, error := some "URL is required", data := none,
        backendCalled := false } ∧
    downloadPOST none f o2 =
      { status := 400, error := some "URL and format_id are required",
        contentType := none, contentDisposition := none, body := none,
        backendCalled := false } ∧
    downloadPOST u none o2 =
      { status := 400, error := some "URL and format_id are required",
        contentType := none, contentDisposition := none, body := none,
        backendCalled := false } := by
  refine ⟨rfl, rfl, ?_⟩
  simp [downloadPOST, jsStrFalsy]

/-- C7 counterexample: for the encoding `{format_id := "137", ext := "webm"}`
(a hyphen-free format id, as the video-info data model allows — `format_id`
and `ext` are independent fields), the completed download's
`Content-Disposition` names `video.mp4`, not the chosen encoding's container
extension `webm`. -/
theorem contentDisposition_not_container_ext :
    (downloadPOST (some "https://youtu.be/abc") (some "137")
        (.resp 200 "BYTES")).contentDisposition =
      some "attachment; filename=\x22video.mp4\x22" ∧
    ({ format_id := "137", ext := "webm", resolution := "1080p",
       filesize := none, vcodec := "vp9", acodec := "none" } : VideoFormat).ext =
      "webm" ∧
    some "attachment; filename=\x22video.mp4\x22" ≠
      some ("attachment; filename=\x22video." ++
        ({ format_id := "137", ext := "webm", resolution := "1080p",
           filesize := none, vcodec := "vp9", acodec := "none" } : VideoFormat).ext
        ++ "\x22") := by
  refine ⟨?_, rfl, by decide⟩
  decide

/-- C7 amended: on a completed download the response is the binary stream with
`Content-Disposition: attachment; filename="video.E"`, where `E` is the second
hyphen-separated component of the submitted `format_id` when present and
nonempty and `"mp4"` otherwise; `E` equals the chosen encoding's container
extension exactly in the case where the `format_id` carries that extension as
its second hyphen-separated component. -/
theorem contentDisposition_from_format_id (u fid blob : String) (s : Nat)
    (hu : u.isEmpty = false) (hf : fid.isEmpty = false) (hs : respOk s = true) :
    (downloadPOST (some u) (some fid) (.resp s blob)).status = 200 ∧
    (downloadPOST (some u) (some fid) (.resp s blob)).contentType =
      some "application/octet-stream" ∧
    (downloadPOST (some u) (some fid) (.resp s blob)).body = some blob ∧
    (downloadPOST (some u) (some fid) (.resp s blob)).contentDisposition =
      some ("attachment; filename=\x22video." ++ fidExt fid ++ "\x22") ∧
    (∀ e : String, (jsSplit '-' fid)[1]? = some e → e.isEmpty = false →
      fidExt fid = e) ∧
    ((jsSplit '-' fid).length ≤ 1 → fidExt fid = "mp4") := by
  have hroute : downloadPOST (some u) (some fid) (.resp s blob) =
      { status := 200, error := none,
        contentType := some "application/octet-stream",
        contentDisposition := some
          ("attachment; filename=\x22video." ++ fidExt fid ++ "\x22"),
        body := some blob, backendCalled := true } := by
    simp [downloadPOST, jsStrFalsy, hu, hf, hs]
  refine ⟨by rw [hroute], by rw [hroute], by rw [hroute], by rw [hroute], ?_, ?_⟩
  · intro e he hne
    simp [fidExt, he, jsOrStr, hne]
  · intro hlen
    have : (jsSplit '-' fid)[1]? = none := List.getElem?_eq_none hlen
    simp [fidExt, this, jsOrStr]

/-- Witness for `contentDisposition_from_format_id` at a concrete request. -/
theorem contentDisposition_from_format_id_witness :
    (downloadPOST (some "https://youtu.be/abc") (some "22-webm")
        (.resp 200 "BYTES")).contentDisposition =
      some "attachment; filename=\x22video.webm\x22" ∧
    fidExt "22-webm" = "webm" := by
  have h := contentDisposition_from_format_id "https://youtu.be/abc" "22-webm"
    "BYTES" 200 rfl rfl rfl
  have he : fidExt "22-webm" = "webm" := h.2.2.2.2.1 "webm" (by decide) rfl
  refine ⟨?_, he⟩
  rw [h.2.2.2.1, he]
  decide

/-- The fixed failure answer of the video-info route. -/
def videoInfoFailure : RouteResult :=
  { status := 500, error := some "Failed to fetch video information",
    data := none, backendCalled := true }

/-- C10: once past the url guard, the video-info route collapses every failure
mode — network error, non-OK backend response (whatever its status and body),
and an OK response whose body fails to parse — to the one fixed 500 answer,
never forwarding the backend's status or detail; the download-simple route, in
contrast, answers a non-OK backend response carrying a JSON `detail` with the
backend's own status code and that detail message. -/
theorem videoInfo_collapses_downloadSimple_preserves (u : String)
    (hu : u.isEmpty = false) :
    videoInfoPOST (some u) .networkError = videoInfoFailure ∧
    (∀ (s : Nat) (b : Option BackendJson), respOk s = false →
      videoInfoPOST (some u) (.resp s b) = videoInfoFailure) ∧
    (∀ s : Nat, respOk s = true →
      videoInfoPOST (some u) (.resp s none) = videoInfoFailure) ∧
    (∀ (s : Nat) (b : BackendJson) (d : String), respOk s = false →
      b.detail = some d → d.isEmpty = false →
      (downloadSimplePOST (some u) (.resp s (some b))).status = s ∧
      (downloadSimplePOST (some u) (.resp s (some b))).error = some d) := by
  refine ⟨by simp [videoInfoPOST, jsStrFalsy, hu, videoInfoFailure], ?_, ?_, ?_⟩
  · intro s b hs
    simp [videoInfoPOST, jsStrFalsy, hu, hs, videoInfoFailure]
  · intro s hs
    simp [videoInfoPOST, jsStrFalsy, hu, hs, videoInfoFailure]
  · intro s b d hs hd hne
    constructor <;> simp [downloadSimplePOST, jsStrFalsy, hu, hs, hd, jsOrStr, hne]

/-- Witness for `videoInfo_collapses_downloadSimple_preserves` at a concrete
url, a concrete 404 backend response and a concrete detail message. -/
theorem videoInfo_collapses_downloadSimple_preserves_witness :
    videoInfoPOST (some "https://youtu.be/abc") (.resp 404
      (some { detail := some "Video unavailable", download_id := none,
              progress := none, message := none, status := none, error := none,
              filename := none, speed := none, eta := none })) = videoInfoFailure ∧
    (downloadSimplePOST (some "https://youtu.be/abc") (.resp 404
      (some { detail := some "Video unavailable", download_id := none,
              progress := none, message := none, status := none, error := none,
              filename := none, speed := none, eta := none }))).status = 404 ∧
    (downloadSimplePOST (some "https://youtu.be/abc") (.resp 404
      (some { detail := some "Video unavailable", download_id := none,
              progress := none, message := none, status := none, error := none,
              filename := none, speed := none, eta := none }))).error =
      some "Video unavailable" := by
  have h := videoInfo_collapses_downloadSimple_preserves "https://youtu.be/abc" rfl
  have h4 := h.2.2.2 404
    { detail := some "Video unavailable", download_id := none, progress := none,
      message := none, status := none, error := none, filename := none,
      speed := none, eta := none } "Video unavailable" rfl rfl rfl
  exact ⟨h.2.1 404 _ rfl, h4.1, h4.2⟩

/-- JavaScript falsiness of a possibly-undefined number (`!bytes`): true for
`undefined` and for `0`. -/
def jsNumFalsy : Option Nat → Bool
  | none => true
  | some n => n == 0

/-- The `sizes` array of `formatFileSize` in `app/page.tsx`. -/
def sizesList : List String := ["Bytes", "KB", "MB", "GB"]

/-- JavaScript number-to-string for the value `m / 100` (the rounded
hundredths produced by `Math.round(x * 100) / 100`): trailing fractional
zeros are dropped as in JavaScript float display. -/
def numToString (m : Nat) : String :=
  let whole := m / 100
  let frac := m % 100
  if frac = 0 then toString whole
  else if frac % 10 = 0 then toString whole ++ "." ++ toString (frac / 10)
  else if frac < 10 then toString whole ++ ".0" ++ toString frac
  else toString whole ++ "." ++ toString frac

/-- `formatFileSize` from `app/page.tsx` (lines 199–205): the `!bytes` guard
answers `'Unknown size'`, then comes the `bytes === 0` check answering
`'0 Byte'`, then `i = floor(log bytes / log 1024)` (which is `Nat.log 1024`
on positive naturals) and the rounded value is printed with the unit
`sizes[i]` — JavaScript yields the string `"undefined"` when `i` runs past
the array. -/
def formatFileSize (bytes : Option Nat) : String :=
  if jsNumFalsy bytes then "Unknown size"
  else if bytes = some 0 then "0 Byte"
  else
    let b := bytes.getD 0
    let i := Nat.log 1024 b
    numToString (round ((b : ℚ) * 100 / (1024 : ℚ) ^ i)).toNat ++ " " ++
      (sizesList[i]?).getD "undefined"

/-- A string whose last character differs from `'e'` cannot make
`s ++ " " ++ u` equal to `"0 Byte"`. -/
theorem append_unit_ne_zeroByte (s u : String) (hu : u.data ≠ [])
    (hne : u.data.getLast? ≠ some 'e') : s ++ " " ++ u ≠ "0 Byte" := by
  intro h
  have h1 := congrArg (fun t => t.data.getLast?) h
  simp only [String.data_append, List.append_assoc, List.getLast?_append] at h1
  apply hne
  rcases hlast : u.data.getLast? with _ | c
  · exact absurd (List.getLast?_eq_none_iff.mp hlast) hu
  · rw [hlast] at h1
    simpa using h1

/-- The unit picked by `formatFileSize` is one of the four array entries or
the JavaScript out-of-bounds string. -/
theorem sizes_unit_cases (i : Nat) :
    (sizesList[i]?).getD "undefined" = "Bytes" ∨
    (sizesList[i]?).getD "undefined" = "KB" ∨
    (sizesList[i]?).getD "undefined" = "MB" ∨
    (sizesList[i]?).getD "undefined" = "GB" ∨
    (sizesList[i]?).getD "undefined" = "undefined" := by
  match i with
  | 0 => exact Or.inl rfl
  | 1 => exact Or.inr (Or.inl rfl)
  | 2 => exact Or.inr (Or.inr (Or.inl rfl))
  | 3 => exact Or.inr (Or.inr (Or.inr (Or.inl rfl)))
  | n + 4 =>
    have h : sizesList[n + 4]? = none := by
      apply List.getElem?_eq_none
      simp [sizesList]
    rw [h]
    exact Or.inr (Or.inr (Or.inr (Or.inr rfl)))

/-- No numeric prefix and unit combination produced by the sized branch of
`formatFileSize` spells `"0 Byte"`. -/
theorem sized_branch_ne_zeroByte (s : String) (i : Nat) :
    s ++ " " ++ (sizesList[i]?).getD "undefined" ≠ "0 Byte" := by
  rcases sizes_unit_cases i with h | h | h | h | h <;> rw [h] <;>
    exact append_unit_ne_zeroByte _ _ (by decide) (by decide)

/-- C9: `formatFileSize` never returns `'0 Byte'` — the `!bytes` guard catches
both `undefined` and `0` first, so `formatFileSize 0` and
`formatFileSize undefined` both answer `'Unknown size'` and the `'0 Byte'`
branch is unreachable. -/
theorem formatFileSize_never_zero_byte (b : Option Nat) :
    formatFileSize b ≠ "0 Byte" ∧
    formatFileSize (some 0) = "Unknown size" ∧
    formatFileSize none = "Unknown size" := by
  refine ⟨?_, rfl, rfl⟩
  match b with
  | none => decide
  | some 0 => decide
  | some (n + 1) =>
    have hfalsy : jsNumFalsy (some (n + 1)) = false := by
      simp [jsNumFalsy]
    simp only [formatFileSize, hfalsy, Bool.false_eq_true, if_false,
      Option.some.injEq, Nat.succ_ne_zero, if_neg, reduceCtorEq]
    exact sized_branch_ne_zeroByte _ _

/-- Modelled from the spec: the Worker's progress normalization (backend code
absent from src) — §4.3 step 3, `percent = bytesSoFar/bytesTotal*100`, clamped
to `[0,100]`. -/
def normalizePercent (soFar total : Nat) : ℚ :=
  min 100 (max 0 ((soFar : ℚ) * 100 / (total : ℚ)))

/-- `normalizePercent` is monotone in the bytes-so-far sample. -/
theorem normalizePercent_mono {a b : Nat} (hab : a ≤ b) (total : Nat) :
    normalizePercent a total ≤ normalizePercent b total := by
  unfold normalizePercent
  have hdiv : (a : ℚ) * 100 / (total : ℚ) ≤ (b : ℚ) * 100 / (total : ℚ) := by
    apply div_le_div_of_nonneg_right _ (by positivity)
    have : (a : ℚ) ≤ (b : ℚ) := by exact_mod_cast hab
    linarith
  exact min_le_min le_rfl (max_le_max le_rfl hdiv)

/-- A chain under a relation survives dropping a prefix. -/
theorem chain'_drop {α : Type} {R : α → α → Prop} {l : List α}
    (h : List.Chain' R l) (j : Nat) : List.Chain' R (l.drop j) := by
  induction j with
  | zero => simpa using h
  | succ n ih =>
    rw [← List.tail_drop]
    exact ih.tail

/-- C4: given the raw byte samples of a running transfer (non-decreasing
bytes-so-far against a fixed total), every normalized `progressPercent`
published while the task is Running lies in `[0,100]` and the published
sequence is monotonically non-decreasing; since any subscriber receives a
replayed recent event followed by the subsequent events in publish order,
every observed view (a suffix of the published sequence) is non-decreasing
too. -/
theorem progress_in_range_and_monotone (total : Nat) (samples : List Nat)
    (h : samples.Chain' (· ≤ ·)) :
    (∀ p ∈ samples.map (fun s => normalizePercent s total), 0 ≤ p ∧ p ≤ 100) ∧
    (samples.map (fun s => normalizePercent s total)).Chain' (· ≤ ·) ∧
    (∀ j, ((samples.map (fun s => normalizePercent s total)).drop j).Chain'
      (· ≤ ·)) := by
  have hchain : (samples.map (fun s => normalizePercent s total)).Chain'
      (· ≤ ·) := by
    rw [List.chain'_map]
    exact h.imp fun a b hab => normalizePercent_mono hab total
  refine ⟨?_, hchain, fun j => chain'_drop hchain j⟩
  intro p hp
  obtain ⟨s, _, rfl⟩ := List.mem_map.mp hp
  exact ⟨le_min (by norm_num) (le_max_left _ _), min_le_left _ _⟩

/-- Witness for `progress_in_range_and_monotone` on a concrete sample run. -/
theorem progress_in_range_and_monotone_witness :
    (∀ p ∈ [0, 100, 150, 200].map (fun s => normalizePercent s 200),
      0 ≤ p ∧ p ≤ 100) ∧
    ([0, 100, 150, 200].map (fun s => normalizePercent s 200)).Chain' (· ≤ ·) ∧
    (∀ j, (([0, 100, 150, 200].map (fun s => normalizePercent s 200)).drop
      j).Chain' (· ≤ ·)) :=
  progress_in_range_and_monotone 200 [0, 100, 150, 200] (by
    refine List.chain'_cons.mpr ⟨by norm_num, ?_⟩
    refine List.chain'_cons.mpr ⟨by norm_num, ?_⟩
    refine List.chain'_cons.mpr ⟨by norm_num, ?_⟩
    exact List.chain'_singleton _)

/-- Task states of the orchestrator (spec §3). -/
inductive TaskState where
  | queued | running | completed | failed | cancelled
deriving Repr, DecidableEq

/-- Terminal states: `Completed`, `Failed`, `Cancelled` (spec glossary). -/
def TaskState.isTerminal : TaskState → Bool
  | .completed => true
  | .failed => true
  | .cancelled => true
  | .queued => false
  | .running => false

/-- Possible answers of the registry's cancellation operation (spec §4.2). -/
inductive CancelResult where
  | ok | notFound | alreadyTerminal
deriving Repr, DecidableEq

/-- First-match lookup in a task registry represented as an association list
from task id to state. -/
def lookupTask : List (String × TaskState) → String → Option TaskState
  | [], _ => none
  | (k, v) :: rest, id => if k == id then some v else lookupTask rest id

/-- Marking one registry entry `Cancelled` when its key matches the cancelled
id. -/
def cancelEntry (id : String) (p : String × TaskState) : String × TaskState :=
  cond (p.1 == id) (p.1, TaskState.cancelled) p

/-- Modelled from the spec: the Task Registry's cancellation (backend code
absent from src) — §4.2 `Cancel(id) -> ok | NotFound | AlreadyTerminal` and
§6: mark a non-terminal task `Cancelled`; answer not-found for an unknown id
and a conflict for an already-terminal task, leaving state unchanged. -/
def cancelTask (reg : List (String × TaskState)) (id : String) :
    CancelResult × List (String × TaskState) :=
  match lookupTask reg id with
  | none => (.notFound, reg)
  | some st =>
    if st.isTerminal then (.alreadyTerminal, reg)
    else (.ok, reg.map (cancelEntry id))

/-- Rewriting the cancelled id's entries changes exactly that id's binding. -/
theorem lookupTask_cancel_self (reg : List (String × TaskState)) (id : String) :
    lookupTask (reg.map (cancelEntry id)) id =
      (lookupTask reg id).map fun _ => TaskState.cancelled := by
  induction reg with
  | nil => rfl
  | cons hd tl ih =>
    obtain ⟨k, v⟩ := hd
    cases hk : k == id <;> simp [lookupTask, cancelEntry, hk, ih]

/-- Bindings of other ids are untouched by the cancellation rewrite. -/
theorem lookupTask_cancel_other (reg : List (String × TaskState))
    (id id2 : String) (h : id2 ≠ id) :
    lookupTask (reg.map (cancelEntry id)) id2 = lookupTask reg id2 := by
  induction reg with
  | nil => rfl
  | cons hd tl ih =>
    obtain ⟨k, v⟩ := hd
    cases hk : k == id with
    | false => cases hk2 : k == id2 <;> simp [lookupTask, cancelEntry, hk, hk2, ih]
    | true =>
      have hkid := eq_of_beq hk
      have hk2 : (k == id2) = false := by
        refine beq_eq_false_iff_ne.mpr fun he => h ?_
        rw [← he, hkid]
      simp [lookupTask, cancelEntry, hk, hk2, ih]

/-- C6: cancellation keyed by task id transitions the task to `Cancelled`
exactly when it is non-terminal (leaving every other task untouched); an
unknown id is answered not-found and an already-terminal task is answered
with a conflict, the registry staying unchanged in both cases. -/
theorem cancel_request_semantics (reg : List (String × TaskState)) (id : String) :
    (lookupTask reg id = none → cancelTask reg id = (.notFound, reg)) ∧
    (∀ st, lookupTask reg id = some st → st.isTerminal = true →
      cancelTask reg id = (.alreadyTerminal, reg)) ∧
    (∀ st, lookupTask reg id = some st → st.isTerminal = false →
      (cancelTask reg id).1 = .ok ∧
      lookupTask (cancelTask reg id).2 id = some .cancelled ∧
      (∀ id2, id2 ≠ id →
        lookupTask (cancelTask reg id).2 id2 = lookupTask reg id2)) := by
  refine ⟨fun h => by simp [cancelTask, h], fun st hst hterm => ?_, ?_⟩
  · simp [cancelTask, hst, hterm]
  · intro st hst hterm
    refine ⟨by simp [cancelTask, hst, hterm], ?_, ?_⟩
    · simp [cancelTask, hst, hterm, lookupTask_cancel_self, hst]
    · intro id2 h2
      simp [cancelTask, hst, hterm, lookupTask_cancel_other reg id id2 h2]

/-- Witness for `cancel_request_semantics` on a concrete registry with a
running and a completed task. -/
theorem cancel_request_semantics_witness :
    cancelTask [("a", TaskState.running), ("b", TaskState.completed)] "zzz" =
      (.notFound, [("a", TaskState.running), ("b", TaskState.completed)]) ∧
    cancelTask [("a", TaskState.running), ("b", TaskState.completed)] "b" =
      (.alreadyTerminal, [("a", TaskState.running), ("b", TaskState.completed)]) ∧
    (cancelTask [("a", TaskState.running), ("b", TaskState.completed)] "a").1 =
      .ok ∧
    lookupTask
      (cancelTask [("a", TaskState.running), ("b", TaskState.completed)] "a").2
      "a" = some .cancelled := by
  have h1 := (cancel_request_semantics
    [("a", TaskState.running), ("b", TaskState.completed)] "zzz").1 (by decide)
  have h2 := (cancel_request_semantics
    [("a", TaskState.running), ("b", TaskState.completed)] "b").2.1
    TaskState.completed (by decide) rfl
  have h3 := (cancel_request_semantics
    [("a", TaskState.running), ("b", TaskState.completed)] "a").2.2
    TaskState.running (by decide) rfl
  exact ⟨h1, h2, h3.1, h3.2.1⟩

/-- Modelled from the spec: the Fingerprint Function (backend code absent from
src) — §4.1: canonicalize the URL, then combine it with the quality selector
string into the stable task id; the combination is embedded as concatenation
around a separator character that cannot occur in a canonical URL. -/
def fingerprint (canonicalUrl selector : String) : String :=
  canonicalUrl ++ "|" ++ selector

/-- Lists split by a separator absent from both prefixes are equal prefix by
prefix and suffix by suffix. -/
theorem sep_append_inj {l₁ l₂ r₁ r₂ : List Char} (h₁ : '|' ∉ l₁)
    (h₂ : '|' ∉ l₂) (h : l₁ ++ '|' :: r₁ = l₂ ++ '|' :: r₂) :
    l₁ = l₂ ∧ r₁ = r₂ := by
  induction l₁ generalizing l₂ with
  | nil =>
    cases l₂ with
    | nil => simpa using h
    | cons b bs =>
      simp only [List.nil_append, List.cons_append, List.cons.injEq] at h
      exact absurd (h.1 ▸ List.mem_cons_self b bs) h₂
  | cons a as ih =>
    cases l₂ with
    | nil =>
      simp only [List.nil_append, List.cons_append, List.cons.injEq] at h
      exact absurd (h.1 ▸ List.mem_cons_self a as) h₁
    | cons b bs =>
      simp only [List.cons_append, List.cons.injEq] at h
      have hrec := ih (fun hm => h₁ (List.mem_cons_of_mem a hm))
        (fun hm => h₂ (List.mem_cons_of_mem b hm)) h.2
      exact ⟨by rw [h.1, hrec.1], hrec.2⟩

/-- C8: the fingerprint is deterministic and injective over distinct
(canonical-url, selector) pairs — for canonical URLs (which cannot contain the
separator character) two requests agree on the id exactly when they agree on
both the canonical URL and the selector; in particular different selectors for
the same URL yield different ids. -/
theorem fingerprint_deterministic_injective (c₁ s₁ c₂ s₂ : String)
    (h₁ : '|' ∉ c₁.data) (h₂ : '|' ∉ c₂.data) :
    fingerprint c₁ s₁ = fingerprint c₂ s₂ ↔ c₁ = c₂ ∧ s₁ = s₂ := by
  constructor
  · intro h
    have hd := congrArg String.data h
    simp only [fingerprint, String.data_append] at hd
    rw [List.append_assoc, List.append_assoc] at hd
    have hsingle : ∀ l : List Char, ("|" : String).data ++ l = '|' :: l :=
      fun l => rfl
    rw [hsingle, hsingle] at hd
    obtain ⟨hc, hs⟩ := sep_append_inj h₁ h₂ hd
    exact ⟨String.ext hc, String.ext hs⟩
  · rintro ⟨rfl, rfl⟩
    rfl

/-- Witness for `fingerprint_deterministic_injective`: the same video at 480p
and at best quality get different task ids. -/
theorem fingerprint_deterministic_injective_witness :
    fingerprint "https://www.youtube.com/watch?v=abc" "480p" ≠
      fingerprint "https://www.youtube.com/watch?v=abc" "best" := by
  intro h
  have hm := (fingerprint_deterministic_injective
    "https://www.youtube.com/watch?v=abc" "480p"
    "https://www.youtube.com/watch?v=abc" "best" (by decide) (by decide)).mp h
  exact absurd hm.2 (by decide)
